import Mathlib

/-!
Verification of the credential-resolution core of the `ha_tuya_ble`
integration (`custom_components/tuya_ble/cloud.py` and
`custom_components/tuya_ble/tuya_ble/manager.py`).

The Python code is shallowly embedded: Python dictionaries become
insertion-ordered association lists, Python values become the `PyVal`
inductive, raised exceptions become `Except PyErr`, and the remote Tuya
cloud (TuyaOpenAPI) becomes an oracle `Remote` whose responses follow the
documented boundary shapes (login response object, device-record lists,
factory-info records, specification records).  Remote call counters are
kept in the state `St` so that "zero remote calls" and "exactly one login
call" are expressible.  Logging statements are treated as effect-free.
-/

namespace TuyaBLE

mutual

/-- Universe of Python values stored in the configuration / credential
dictionaries of `cloud.py`.  `authType n` models a `tuya_iot.AuthType`
enum member (an `IntEnum` with raw value `n`): it is a distinct object
from the plain integer `n`, but serializes like `n` (see `jsonOfPyVal`). -/
inductive PyVal where
  | none
  | bool (b : Bool)
  | int (n : Int)
  | str (s : String)
  | authType (n : Int)
  | list (xs : PyList)
deriving DecidableEq, Repr

/-- A Python list value (spelled as its own inductive so that equality of
values stays decidable). -/
inductive PyList where
  | nil
  | cons (x : PyVal) (xs : PyList)
deriving DecidableEq, Repr

end

/-- `True`/`False` of the Python `is None` test. -/
def PyVal.isNoneV : PyVal → Bool
  | .none => true
  | _ => false

/-- The Python `isinstance(v, AuthType)` test. -/
def PyVal.isAuthType : PyVal → Bool
  | .authType _ => true
  | _ => false

/-- Python truthiness of a value. -/
def truthy : PyVal → Bool
  | .none => false
  | .bool b => b
  | .int n => n != 0
  | .str s => s != ""
  | .authType _ => true
  | .list .nil => false
  | .list (.cons _ _) => true

/-- A Python `dict[str, ...]`: an insertion-ordered association list with
unique keys maintained by `aset`. -/
abbrev AList (α : Type) := List (String × α)

/-- Python `d.get(k)` / `k in d`: the first binding of `k`, if any. -/
def aget {α : Type} : AList α → String → Option α
  | [], _ => Option.none
  | (k, v) :: rest, key => if k = key then some v else aget rest key

/-- Python `d[k] = v`: overwrite in place, else append (insertion order). -/
def aset {α : Type} : AList α → String → α → AList α
  | [], k, v => [(k, v)]
  | (k', v') :: rest, k, v =>
      if k' = k then (k, v) :: rest else (k', v') :: aset rest k v

/-- A Python configuration / credential dictionary. -/
abbrev Dict := AList PyVal

/-- Python `d.get(k)`: `None` when the key is absent. -/
def getOrNone (d : Dict) (k : String) : PyVal := (aget d k).getD .none

/-- Python `d.get(k, default)`. -/
def pyGetD (d : Dict) (k : String) (default : PyVal) : PyVal :=
  (aget d k).getD default

/-- Python `d.update(u)`: every binding of `u` written into `d` in order. -/
def dupdate (d u : Dict) : Dict := u.foldl (fun acc kv => aset acc kv.1 kv.2) d

/-! Keys of the configuration dictionaries.  The literal values come from
`homeassistant.const` and the integration's `const.py` (the latter is not
part of the sources shown; only the identity and pairwise distinctness of
the keys matter to the claims, not their spellings). -/

def CONF_ENDPOINT : String := "endpoint"
def CONF_ACCESS_ID : String := "access_id"
def CONF_ACCESS_SECRET : String := "access_secret"
def CONF_AUTH_TYPE : String := "auth_type"
def CONF_USERNAME : String := "username"
def CONF_PASSWORD : String := "password"
def CONF_COUNTRY_CODE : String := "country_code"
def CONF_APP_TYPE : String := "app_type"
def CONF_ADDRESS : String := "address"
def CONF_UUID : String := "uuid"
def CONF_LOCAL_KEY : String := "local_key"
def CONF_DEVICE_ID : String := "device_id"
def CONF_CATEGORY : String := "category"
def CONF_PRODUCT_ID : String := "product_id"
def CONF_DEVICE_NAME : String := "device_name"
def CONF_PRODUCT_NAME : String := "product_name"
def CONF_PRODUCT_MODEL : String := "product_model"
def CONF_FUNCTIONS : String := "functions"
def CONF_STATUS_RANGE : String := "status_range"
def TUYA_RESPONSE_SUCCESS : String := "success"
def TUYA_RESPONSE_RESULT : String := "result"
def TUYA_FACTORY_INFO_MAC : String := "mac"

/-- `CONF_TUYA_LOGIN_KEYS` of `cloud.py` (order as in the source). -/
def CONF_TUYA_LOGIN_KEYS : List String :=
  [CONF_ENDPOINT, CONF_ACCESS_ID, CONF_ACCESS_SECRET, CONF_AUTH_TYPE,
   CONF_USERNAME, CONF_PASSWORD, CONF_COUNTRY_CODE, CONF_APP_TYPE]

/-- `CONF_TUYA_DEVICE_KEYS` of `cloud.py` (order as in the source). -/
def CONF_TUYA_DEVICE_KEYS : List String :=
  [CONF_UUID, CONF_LOCAL_KEY, CONF_DEVICE_ID, CONF_CATEGORY,
   CONF_PRODUCT_ID, CONF_DEVICE_NAME, CONF_PRODUCT_NAME, CONF_PRODUCT_MODEL]

mutual

/-- Deterministic rendering of a value as `json.dumps` renders it.
An `AuthType` member is an `IntEnum`, so `json.dumps` serializes it as its
integer raw value. -/
def jsonOfPyVal : PyVal → String
  | .none => "null"
  | .bool true => "true"
  | .bool false => "false"
  | .int n => toString n
  | .str s => "\"" ++ s ++ "\""
  | .authType n => toString n
  | .list xs => "[" ++ jsonOfPyList xs ++ "]"

/-- Comma-separated rendering of the elements of a list value. -/
def jsonOfPyList : PyList → String
  | .nil => ""
  | .cons x .nil => jsonOfPyVal x
  | .cons x (.cons y rest) => jsonOfPyVal x ++ ", " ++ jsonOfPyList (.cons y rest)

end

/-- Rendering of the pair list of a dictionary as `json.dumps` does. -/
def jsonOfPairs (ps : List (String × PyVal)) : String :=
  "\x7b" ++
    String.intercalate ", "
      (ps.map (fun kv => "\"" ++ kv.1 ++ "\": " ++ jsonOfPyVal kv.2)) ++
  "\x7d"

/-- `HASSTuyaBLEDeviceManager._get_cache_key`: json dump of
`{key: data.get(key) for key in CONF_TUYA_LOGIN_KEYS}` (the comprehension
iterates the fixed key list, so the result depends only on the values of
the login keys). -/
def _get_cache_key (data : Dict) : String :=
  jsonOfPairs (CONF_TUYA_LOGIN_KEYS.map (fun k => (k, getOrNone data k)))

/-- `HASSTuyaBLEDeviceManager._has_login`:
`all(data.get(key) is not None for key in CONF_TUYA_LOGIN_KEYS)`. -/
def _has_login (data : Dict) : Bool :=
  CONF_TUYA_LOGIN_KEYS.all (fun k => !(getOrNone data k).isNoneV)

/-- `HASSTuyaBLEDeviceManager._has_credentials`:
`all(data.get(key) is not None for key in CONF_TUYA_DEVICE_KEYS)`. -/
def _has_credentials (data : Dict) : Bool :=
  CONF_TUYA_DEVICE_KEYS.all (fun k => !(getOrNone data k).isNoneV)

/-- `HASSTuyaBLEDeviceManager._is_login_success`:
`bool(response.get(TUYA_RESPONSE_SUCCESS, False))`. -/
def _is_login_success (response : Dict) : Bool :=
  truthy (pyGetD response TUYA_RESPONSE_SUCCESS (.bool false))

/-- ASCII `str.upper` on one character (the characters reaching it in
`cloud.py` are hexadecimal digits). -/
def pyUpperChar (c : Char) : Char :=
  if 97 ≤ c.toNat ∧ c.toNat ≤ 122 then Char.ofNat (c.toNat - 32) else c

/-- The six two-character slices `s[i:i+2] for i in range(0, 12, 2)`. -/
def macChunks (s : List Char) : List (List Char) :=
  [0, 2, 4, 6, 8, 10].map (fun i => (s.drop i).take 2)

/-- `":".join(mac[i:i+2] for i in range(0, 12, 2)).upper()` of
`_fill_cache_item`, on the character list of the raw value. -/
def macNormalizeL (s : List Char) : List Char :=
  (List.intercalate [':'] (macChunks s)).map pyUpperChar

/-- String form of `macNormalizeL`, used as the credential-table key. -/
def macNormalize (s : String) : String := (macNormalizeL s.toList).asString

/-- The only exceptions that can escape the embedded operations: a failed
`data[key]` subscript (Python `KeyError`), an attribute access on `None`
(Python `AttributeError`), and slicing a non-string hardware-address
value (Python `TypeError`, lines 222-225 of `cloud.py`). -/
inductive PyErr where
  | keyError (k : String)
  | attrError
  | typeError
deriving DecidableEq, Repr

/-- A connected `TuyaOpenAPI` object; `uid` is `api.token_info.uid` as set
by a successful `connect`. -/
structure Api where
  uid : String
deriving DecidableEq, Repr

/-- `TuyaCloudCacheItem` of `cloud.py`: session handle, the login field
set that produced it, and the per-address credential table. -/
structure TuyaCloudCacheItem where
  api : Option Api
  login : Dict
  credentials : AList Dict
deriving DecidableEq, Repr

/-- The process-wide `_cache` dictionary: cache key → cache item. -/
abbrev Cache := AList TuyaCloudCacheItem

/-- Mutable state threaded through the operations: the global `_cache`
plus counters of the remote calls issued (`connects` counts
`api.connect` logins, `gets` counts `api.get` device-data fetches). -/
structure St where
  cache : Cache
  connects : Nat
  gets : Nat
deriving DecidableEq, Repr

/-- One more remote login call issued. -/
def bumpConnect (st : St) : St := { st with connects := st.connects + 1 }

/-- One more remote device-data call issued. -/
def bumpGet (st : St) : St := { st with gets := st.gets + 1 }

/-- Behaviour of the remote directory service (`TuyaOpenAPI`), the
injected collaborator of §6 of the spec.  Responses follow the documented
boundary shapes: `connect` yields a raised error or a response dictionary
together with the `token_info.uid` the api object holds afterwards;
`listDevices` yields the value at the `result` key of the devices
response (`Option.none` when the key is absent or the value is not a list
of device records — in either case the source loop does no work);
`factoryInfo` and `deviceSpec`, keyed by the device identifier, yield the
`result` of the factory-info and specification responses.  `connect` is
indexed by the number of logins issued so far, so distinct login calls of
one scenario may behave differently. -/
structure Remote where
  connect : Nat → Except Unit (Dict × String)
  listDevices : String → Except Unit (Option (List Dict))
  factoryInfo : PyVal → Except Unit (Option (List Dict))
  deviceSpec : PyVal → Except Unit (Option Dict)

/-- `HASSTuyaBLEDeviceManager._login(data, add_to_cache)`.

Returns `(response-or-raise, state, data)`: the state and the (possibly
mutated) `data` dictionary survive even when an exception propagates.
Mirrors the source: empty `data` returns `{}` without a remote call; a
raised `connect` error is caught and treated as an empty response; on a
successful response with `add_to_cache` the source executes
`auth_type = data[CONF_AUTH_TYPE]` (an unguarded subscript that raises
`KeyError` when the key is absent), replaces an `AuthType` enum value by
its raw value in `data`, and then upserts the cache entry at
`_get_cache_key(data)` — an existing entry gets a new `api` handle and
login fields while its `credentials` table is left untouched. -/
def authNormalize (data : Dict) (authVal : PyVal) : Dict :=
  match authVal with
  | .authType n => aset data CONF_AUTH_TYPE (.int n)
  | _ => data

/-- The cache upsert of a successful login (lines 169-177 of `cloud.py`):
an existing entry at `_get_cache_key(data2)` gets a fresh api handle and
login fields, its credential table untouched; otherwise a fresh entry
with an empty credential table is inserted. -/
def loginCacheUpsert (cache : Cache) (data2 : Dict) (uid : String) : Cache :=
  let cacheKey := _get_cache_key data2
  match aget cache cacheKey with
  | some item =>
      aset cache cacheKey { item with api := some ⟨uid⟩, login := data2 }
  | Option.none => aset cache cacheKey ⟨some ⟨uid⟩, data2, []⟩

def _login (remote : Remote) (st : St) (data : Dict) (add_to_cache : Bool) :
    Except PyErr Dict × St × Dict :=
  if data.isEmpty then (.ok [], st, data)
  else
    let st1 := bumpConnect st
    match remote.connect st.connects with
    | .error _ => (.ok [], st1, data)
    | .ok (response, uid) =>
      if _is_login_success response then
        if add_to_cache then
          match aget data CONF_AUTH_TYPE with
          | Option.none => (.error (.keyError CONF_AUTH_TYPE), st1, data)
          | some authVal =>
            let data2 := authNormalize data authVal
            (.ok response,
             { st1 with cache := loginCacheUpsert st1.cache data2 uid },
             data2)
        else (.ok response, st1, data)
      else (.ok response, st1, data)

/-- Update of `item.credentials[mac][key] = value`. -/
def credUpdate (creds : AList Dict) (mac key : String) (value : PyVal) :
    AList Dict :=
  match aget creds mac with
  | some c => aset creds mac (aset c key value)
  | Option.none => creds

/-- Body of the device loop of `_fill_cache_item` for one device record.
A raised factory-info or specification fetch is caught (`continue`); the
credential entry is inserted as soon as the hardware address is known —
before the specification fetch — exactly as in the source, so a failed
specification fetch leaves the entry in place without capability lists.
The address normalization of lines 222-225 sits *outside* every `try`:
when the value under the `mac` key of the factory-info record is not a
string (e.g. `None`), slicing it raises an uncaught `TypeError` that
propagates out of the whole resolution. -/
def fillDevice (remote : Remote) (st : St) (creds : AList Dict)
    (dev : Dict) : Except PyErr Unit × St × AList Dict :=
  let st1 := bumpGet st
  match remote.factoryInfo (getOrNone dev "id") with
  | .error _ => (.ok (), st1, creds)
  | .ok Option.none => (.ok (), st1, creds)
  | .ok (some []) => (.ok (), st1, creds)
  | .ok (some (factory_info :: _)) =>
    match aget factory_info TUYA_FACTORY_INFO_MAC with
    | Option.none => (.ok (), st1, creds)
    | some macVal =>
      match macVal with
      | .str rawMac =>
        let mac := macNormalize rawMac
        let cred : Dict :=
          [(CONF_ADDRESS, .str mac),
           (CONF_UUID, getOrNone dev "uuid"),
           (CONF_LOCAL_KEY, getOrNone dev "local_key"),
           (CONF_DEVICE_ID, getOrNone dev "id"),
           (CONF_CATEGORY, getOrNone dev "category"),
           (CONF_PRODUCT_ID, getOrNone dev "product_id"),
           (CONF_DEVICE_NAME, getOrNone dev "name"),
           (CONF_PRODUCT_MODEL, getOrNone dev "model"),
           (CONF_PRODUCT_NAME, getOrNone dev "product_name")]
        let creds2 := aset creds mac cred
        let st2 := bumpGet st1
        match remote.deviceSpec (getOrNone dev "id") with
        | .error _ => (.ok (), st2, creds2)
        | .ok Option.none => (.ok (), st2, creds2)
        | .ok (some spec) =>
          if spec.isEmpty then (.ok (), st2, creds2)
          else
            let fns := getOrNone spec "functions"
            let creds3 :=
              if truthy fns then credUpdate creds2 mac CONF_FUNCTIONS fns
              else creds2
            let sts := getOrNone spec "status"
            let creds4 :=
              if truthy sts then credUpdate creds3 mac CONF_STATUS_RANGE sts
              else creds3
            (.ok (), st2, creds4)
      | _ => (.error .typeError, st1, creds)

/-- The loop `for device in devices` of `_fill_cache_item`: an uncaught
exception in the body (the `TypeError` of a non-string address value)
aborts the loop and propagates; the entries inserted so far remain. -/
def fillDevices (remote : Remote) : St → AList Dict → List Dict →
    Except PyErr Unit × St × AList Dict
  | st, creds, [] => (.ok (), st, creds)
  | st, creds, dev :: rest =>
      match fillDevice remote st creds dev with
      | (.error pe, st1, creds1) => (.error pe, st1, creds1)
      | (.ok (), st1, creds1) => fillDevices remote st1 creds1 rest

/-- `HASSTuyaBLEDeviceManager._fill_cache_item(item)`.

The very first statement of the source reads `item.api.token_info.uid`
outside any `try`, so a cache item without an api handle raises
`AttributeError`; a raised list-devices fetch is caught and aborts only
this item's population; an absent, falsy or non-list `result` value does
nothing; an uncaught `TypeError` from the device loop propagates.
Returns the mutated item alongside the state in every case. -/
def _fill_cache_item (remote : Remote) (st : St) (item : TuyaCloudCacheItem) :
    Except PyErr Unit × St × TuyaCloudCacheItem :=
  match item.api with
  | Option.none => (.error .attrError, st, item)
  | some api =>
    let st1 := bumpGet st
    match remote.listDevices api.uid with
    | .error _ => (.ok (), st1, item)
    | .ok Option.none => (.ok (), st1, item)
    | .ok (some devices) =>
      if devices.isEmpty then (.ok (), st1, item)
      else
        let t := fillDevices remote st1 item.credentials devices
        (t.1, t.2.1, { item with credentials := t.2.2 })

/-- `TuyaBLEDeviceCredentials` of `tuya_ble/manager.py` (field values are
whatever Python objects the dictionaries held, hence `PyVal`). -/
structure TuyaBLEDeviceCredentials where
  uuid : PyVal
  local_key : PyVal
  device_id : PyVal
  category : PyVal
  product_id : PyVal
  device_name : PyVal
  product_model : PyVal
  product_name : PyVal
  functions : PyVal
  status_range : PyVal
deriving DecidableEq, Repr

/-- The `TuyaBLEDeviceCredentials(credentials.get(..., ...))` construction
of `get_device_credentials` (lines 341-352 of `cloud.py`): every field is
read with a default, so missing keys silently become `""` or `[]`. -/
def mkCredentials (c : Dict) : TuyaBLEDeviceCredentials :=
  ⟨pyGetD c CONF_UUID (.str ""),
   pyGetD c CONF_LOCAL_KEY (.str ""),
   pyGetD c CONF_DEVICE_ID (.str ""),
   pyGetD c CONF_CATEGORY (.str ""),
   pyGetD c CONF_PRODUCT_ID (.str ""),
   pyGetD c CONF_DEVICE_NAME (.str ""),
   pyGetD c CONF_PRODUCT_MODEL (.str ""),
   pyGetD c CONF_PRODUCT_NAME (.str ""),
   pyGetD c CONF_FUNCTIONS (.list .nil),
   pyGetD c CONF_STATUS_RANGE (.list .nil)⟩

/-- `AbstractTuyaBLEDeviceManager.check_and_create_device_credentials` of
`tuya_ble/manager.py`: the credential well-formedness check provided by
the abstract base class — it refuses to build a credential whose identity
token, local key, device identifier, category or product identifier is
falsy (empty). -/
def check_and_create_device_credentials (uuid local_key device_id category
    product_id device_name product_model product_name functions
    status_range : PyVal) : Option TuyaBLEDeviceCredentials :=
  if truthy uuid ∧ truthy local_key ∧ truthy device_id ∧ truthy category ∧
      truthy product_id then
    some ⟨uuid, local_key, device_id, category, product_id, device_name,
          product_model, product_name, functions, status_range⟩
  else
    Option.none

/-- The fallback scan of `get_device_credentials` (lines 322-325):
`for key in _cache.keys(): if _cache[key].credentials.get(address) is not
None: cache_key = key; break` — first entry in insertion order whose
credential table knows the address. -/
def findKeyByAddress : Cache → String → Option String
  | [], _ => Option.none
  | (key, item) :: rest, address =>
      if (aget item.credentials address).isSome then some key
      else findKeyByAddress rest address

/-- Tail of `get_device_credentials` (lines 340-360): if a credentials
dictionary was found and is truthy, build the result object and, when
`save_data` is set, merge the entry's login fields (when an item is at
hand) and the credential fields into the manager's data dictionary. -/
def gdcFinish (item : Option TuyaCloudCacheItem) (credentials : Option Dict)
    (data : Dict) (save_data : Bool) (st : St) :
    Except PyErr (Option TuyaBLEDeviceCredentials) × St × Dict :=
  match credentials with
  | Option.none => (.ok Option.none, st, data)
  | some c =>
    if c.isEmpty then (.ok Option.none, st, data)
    else
      let result := mkCredentials c
      let data2 :=
        if save_data then
          let dataL := match item with
            | some it => dupdate data it.login
            | Option.none => data
          dupdate dataL c
        else data
      (.ok (some result), st, data2)

/-- Continuation of a resolver run that is parked on the awaited remote
login (`await self.login(True)` of line 331): the lookup key and the
`item` variable as computed before the suspension, the index of the login
call issued, and the manager's data dictionary. -/
structure Susp where
  cacheKey : Option String
  item0 : Option TuyaCloudCacheItem
  idx : Nat
  data : Dict
deriving Repr

/-- First phase of `get_device_credentials(address, force_update,
save_data)`: everything up to the single suspension point at the awaited
remote login.  Paths that need no remote login (the complete local hint
fast path of lines 314-316, a cache hit without `force_update`, and a
login short-circuited by an empty data dictionary) finish immediately
(`Sum.inl`); otherwise the remote login call is issued (the counter is
bumped) and the run parks (`Sum.inr`). -/
def gdcStep1 (st : St) (data : Dict) (address : String)
    (force_update save_data : Bool) :
    Sum (Except PyErr (Option TuyaBLEDeviceCredentials) × Dict) Susp × St :=
  if !force_update && _has_credentials data then
    let t := gdcFinish Option.none (some data) data save_data st
    (.inl (t.1, t.2.2), t.2.1)
  else
    let cacheKey : Option String :=
      if _has_login data then some (_get_cache_key data)
      else findKeyByAddress st.cache address
    let item0 := cacheKey.bind (fun k => aget st.cache k)
    if item0.isNone || force_update then
      if data.isEmpty then
        -- `_login` returns `{}` without a remote call; not a success, so
        -- the `item` variable keeps its pre-login value.
        let t := gdcFinish item0
          (item0.bind (fun it => aget it.credentials address)) data
          save_data st
        (.inl (t.1, t.2.2), t.2.1)
      else
        (.inr ⟨cacheKey, item0, st.connects, data⟩, bumpConnect st)
    else
      let t := gdcFinish item0
        (item0.bind (fun it => aget it.credentials address)) data save_data st
      (.inl (t.1, t.2.2), t.2.1)

/-- Lines 332-338 of `get_device_credentials` after a successful login:
re-read the `item` variable from the cache at the pre-login `cache_key`,
run `_fill_cache_item` on it (writing the in-place mutation back), then
look the address up in its credential table; the final lines 340-360 run
in `gdcFinish`. -/
def gdcRecheck (remote : Remote) (cacheKey : Option String) (data2 : Dict)
    (address : String) (save_data : Bool) (st2 : St) :
    Except PyErr (Option TuyaBLEDeviceCredentials) × St × Dict :=
  match cacheKey with
  | Option.none => gdcFinish Option.none Option.none data2 save_data st2
  | some k =>
    match aget st2.cache k with
    | Option.none => gdcFinish Option.none Option.none data2 save_data st2
    | some item1 =>
      let (e, st3, item2) := _fill_cache_item remote st2 item1
      let st4 := { st3 with cache := aset st3.cache k item2 }
      match e with
      | .error pe => (.error pe, st4, data2)
      | .ok () =>
        let credentials := aget item2.credentials address
        gdcFinish (some item2) credentials data2 save_data st4

/-- Second phase of `get_device_credentials`: the resolver resumes with
the outcome of its remote login call (everything of `_login` after the
awaited `connect`, lines 158-179, then lines 332-360).  On a successful
login the cache is upserted, the `item` variable is re-read from the
cache at the pre-login `cache_key`, `_fill_cache_item` runs on it (its
in-place mutation is written back), and the credential table is
consulted; a raised login error was caught and keeps the pre-login
`item`. -/
def gdcStep2 (remote : Remote) (s : Susp) (address : String)
    (save_data : Bool) (st : St) :
    Except PyErr (Option TuyaBLEDeviceCredentials) × St × Dict :=
  match remote.connect s.idx with
  | .error _ =>
    let credentials := s.item0.bind (fun it => aget it.credentials address)
    gdcFinish s.item0 credentials s.data save_data st
  | .ok (response, uid) =>
    if _is_login_success response then
      match aget s.data CONF_AUTH_TYPE with
      | Option.none => (.error (.keyError CONF_AUTH_TYPE), st, s.data)
      | some authVal =>
        let data2 := authNormalize s.data authVal
        let st2 := { st with cache := loginCacheUpsert st.cache data2 uid }
        gdcRecheck remote s.cacheKey data2 address save_data st2
    else
      let credentials := s.item0.bind (fun it => aget it.credentials address)
      gdcFinish s.item0 credentials s.data save_data st

/-- `HASSTuyaBLEDeviceManager.get_device_credentials(address,
force_update, save_data)`: the two phases run back to back (the
sequential execution of the coroutine). -/
def get_device_credentials (remote : Remote) (st : St) (data : Dict)
    (address : String) (force_update save_data : Bool) :
    Except PyErr (Option TuyaBLEDeviceCredentials) × St × Dict :=
  match gdcStep1 st data address force_update save_data with
  | (.inl (e, data2), st1) => (e, st1, data2)
  | (.inr s, st1) => gdcStep2 remote s address save_data st1

/-- Body of the per-context loop of `build_cache` (lines 266-289; the two
loops have identical bodies): skip a context whose cache entry is already
populated, else log in and, when the (re-read) entry is still empty, run
the detail-fetch pipeline on it.  Besides the outcome and the state it
returns the key of the cache entry into which `_login` stored the shared
per-pass dictionary by reference (`cache_item.login = data`, present
exactly when the login succeeded), and the shared dictionary's content
after the iteration (the `auth_type` normalization mutates it). -/
def buildOne (remote : Remote) (st : St) (data : Dict) :
    Except PyErr Unit × St × Option String × Dict :=
  let key := _get_cache_key data
  let skip := match aget st.cache key with
    | some item => !item.credentials.isEmpty
    | Option.none => false
  if skip then (.ok (), st, Option.none, data)
  else
    let t := _login remote st data true
    match t.1 with
    | .error pe => (.error pe, t.2.1, Option.none, t.2.2)
    | .ok response =>
      if _is_login_success response then
        let aliased := some (_get_cache_key t.2.2)
        match aget t.2.1.cache key with
        | some item =>
          if item.credentials.isEmpty then
            let f := _fill_cache_item remote t.2.1 item
            let st3 := { f.2.1 with cache := aset f.2.1.cache key f.2.2 }
            (f.1, st3, aliased, t.2.2)
          else (.ok (), t.2.1, aliased, t.2.2)
        | Option.none => (.ok (), t.2.1, aliased, t.2.2)
      else (.ok (), t.2.1, Option.none, t.2.2)

/-- The loop of `build_cache` over the configuration contexts, with the
shared per-pass dictionary: each iteration clears and refills the one
`data` dictionary (`data.clear(); data.update(...)`), and collects the
keys of the entries whose login fields were made to alias it.  Returns
the outcome, the state, the shared dictionary's final content and the
aliased keys. -/
def buildPassGo (remote : Remote) :
    St → Dict → List String → List Dict →
      Except PyErr Unit × St × Dict × List String
  | st, shared, aliased, [] => (.ok (), st, shared, aliased)
  | st, _shared, aliased, ctx :: rest =>
    let shared1 := dupdate [] ctx
    let t := buildOne remote st shared1
    match t.1 with
    | .error pe => (.error pe, t.2.1, t.2.2.2, aliased ++ t.2.2.1.toList)
    | .ok () => buildPassGo remote t.2.1 t.2.2.2 (aliased ++ t.2.2.1.toList)
        rest

/-- Overwrite the login field of the entry at `k` with `shared`: the view
through the reference `_login` stored there. -/
def setLogin (cache : Cache) (k : String) (shared : Dict) : Cache :=
  match aget cache k with
  | some it => aset cache k { it with login := shared }
  | Option.none => cache

/-- Resolve the shared-dictionary aliases at the end of a pass: every
entry whose login field aliases the shared per-pass dictionary shows its
final content. -/
def applyAliases (cache : Cache) (keys : List String) (shared : Dict) :
    Cache :=
  keys.foldl (fun c k => setLogin c k shared) cache

/-- `build_cache` over all known configuration contexts.  The source
reuses ONE `data` dictionary across iterations and `_login` stores it
*by reference* into each upserted entry's login field; nothing reads
those login fields during the pass, so the observable effect is that
when the pass ends (normally or by a propagating exception) the login
field of every entry upserted during the pass holds the shared
dictionary's final content — the last context processed, clobbering the
earlier contexts' login fields. -/
def buildPass (remote : Remote) (st : St) (ctxs : List Dict) :
    Except PyErr Unit × St :=
  let t := buildPassGo remote st [] [] ctxs
  (t.1, { t.2.1 with cache := applyAliases t.2.1.cache t.2.2.2 t.2.2.1 })

/-- One cache evolves into another keeping every entry's credential table
exactly (entries may change session handle and login fields). -/
def credsKept (c c2 : Cache) : Prop :=
  ∀ k it, aget c k = some it →
    ∃ it2, aget c2 k = some it2 ∧ it2.credentials = it.credentials

/-- One cache evolves into another in which every address known to an
entry's credential table is still known: keys are only added to or
overwritten in the sub-maps, never removed. -/
def credsGrow (c c2 : Cache) : Prop :=
  ∀ k it a, aget c k = some it → (aget it.credentials a).isSome →
    ∃ it2, aget c2 k = some it2 ∧ (aget it2.credentials a).isSome

/-! ### The hexadecimal alphabet -/

/-- The twenty-two characters of a hexadecimal digit. -/
def hexChars : List Char := "0123456789abcdefABCDEF".toList

/-- Colon and the uppercase hexadecimal digits. -/
def upperHexColon : List Char := ":0123456789ABCDEF".toList

/-! ### Example inputs used by the concrete evaluations -/

/-- A remote whose every call raises. -/
def exRemoteNull : Remote :=
  ⟨fun _ => .error (), fun _ => .error (), fun _ => .error (),
   fun _ => .error ()⟩

/-- The empty process state: empty cache, no remote calls issued yet. -/
def exSt0 : St := ⟨[], 0, 0⟩

/-- A local hint that passes `_has_credentials` (every device key is
non-`None`) yet is incomplete in the sense of the spec: its identity
token is the empty string. -/
def exIncompleteHint : Dict :=
  [(CONF_UUID, .str ""), (CONF_LOCAL_KEY, .str "k"),
   (CONF_DEVICE_ID, .str "i"), (CONF_CATEGORY, .str "c"),
   (CONF_PRODUCT_ID, .str "p"), (CONF_DEVICE_NAME, .str "n"),
   (CONF_PRODUCT_NAME, .str "pn"), (CONF_PRODUCT_MODEL, .str "pm")]

/-- A local hint that is a complete credential (all device keys hold
non-empty values). -/
def exCompleteHint : Dict :=
  [(CONF_UUID, .str "U"), (CONF_LOCAL_KEY, .str "K"),
   (CONF_DEVICE_ID, .str "I"), (CONF_CATEGORY, .str "C"),
   (CONF_PRODUCT_ID, .str "P"), (CONF_DEVICE_NAME, .str "N"),
   (CONF_PRODUCT_NAME, .str "PN"), (CONF_PRODUCT_MODEL, .str "PM")]

/-- A complete cached credential dictionary for address `AA`. -/
def exCachedCred : Dict :=
  [(CONF_UUID, .str "U"), (CONF_LOCAL_KEY, .str "K"),
   (CONF_DEVICE_ID, .str "I"), (CONF_CATEGORY, .str "C"),
   (CONF_PRODUCT_ID, .str "P")]

/-- A cache item holding a session handle and the credential for `AA`. -/
def exCachedItem : TuyaCloudCacheItem := ⟨some ⟨"uid0"⟩, [], [("AA", exCachedCred)]⟩

/-- A process state whose cache already knows address `AA`. -/
def exStCached : St := ⟨[("K0", exCachedItem)], 0, 0⟩

/-- A remote whose login always succeeds (uid `uid1`) and whose directory
is empty; detail fetches raise. -/
def exRemoteLoginOk : Remote :=
  ⟨fun _ => .ok ([(TUYA_RESPONSE_SUCCESS, .bool true)], "uid1"),
   fun _ => .ok Option.none, fun _ => .error (), fun _ => .error ()⟩

/-- A full login field set whose auth-type entry is `auth`. -/
def exLoginData (auth : PyVal) : Dict :=
  [(CONF_ENDPOINT, .str "e"), (CONF_ACCESS_ID, .str "a"),
   (CONF_ACCESS_SECRET, .str "s"), (CONF_AUTH_TYPE, auth),
   (CONF_USERNAME, .str "u"), (CONF_PASSWORD, .str "p"),
   (CONF_COUNTRY_CODE, .str "1"), (CONF_APP_TYPE, .str "t")]

/-- The interleaved execution of two concurrent
`get_device_credentials(address, False, False)` calls sharing the
process-wide cache: both run their synchronous prefix (up to issuing the
awaited remote login) before either login response is processed — a
schedule the cooperative scheduler permits because the remote login is a
suspension point and no lock is held.  Returns the two outcomes and the
final shared state. -/
def interleavedPair (remote : Remote) (st : St) (data : Dict)
    (address : String) :
    Option (Except PyErr (Option TuyaBLEDeviceCredentials)
      × Except PyErr (Option TuyaBLEDeviceCredentials)) × St :=
  match gdcStep1 st data address false false with
  | (.inr s1, st1) =>
    match gdcStep1 st1 data address false false with
    | (.inr s2, st2) =>
      let (e1, st3, _) := gdcStep2 remote s1 address false st2
      let (e2, st4, _) := gdcStep2 remote s2 address false st3
      (some (e1, e2), st4)
    | (.inl _, st2) => (Option.none, st2)
  | (.inl _, st1) => (Option.none, st1)

/-- Device record A of the batch-fill scenario. -/
def exDevA : Dict :=
  [("id", .str "idA"), ("uuid", .str "uA"), ("local_key", .str "kA"),
   ("category", .str "cA"), ("product_id", .str "pA"), ("name", .str "nA"),
   ("model", .str "mA"), ("product_name", .str "pnA")]

/-- Device record B of the batch-fill scenario. -/
def exDevB : Dict :=
  [("id", .str "idB"), ("uuid", .str "uB"), ("local_key", .str "kB"),
   ("category", .str "cB"), ("product_id", .str "pB"), ("name", .str "nB"),
   ("model", .str "mB"), ("product_name", .str "pnB")]

/-- Device record C of the batch-fill scenario. -/
def exDevC : Dict :=
  [("id", .str "idC"), ("uuid", .str "uC"), ("local_key", .str "kC"),
   ("category", .str "cC"), ("product_id", .str "pC"), ("name", .str "nC"),
   ("model", .str "mC"), ("product_name", .str "pnC")]

/-- A capability function list. -/
def exFns : PyVal := .list (.cons (.str "fn") .nil)

/-- A reportable status list. -/
def exSts : PyVal := .list (.cons (.str "st") .nil)

/-- The remote of the batch scenario: the first login yields a session
(`uidFail`) whose device listing raises, every later login yields a
session (`uidX`) listing devices A, B and C; every factory-info fetch
succeeds with a distinct hardware address; the capability-spec fetch for
device B raises while those for A and C succeed. -/
def exRemoteBatch : Remote :=
  ⟨fun i => if i = 0 then .ok ([(TUYA_RESPONSE_SUCCESS, .bool true)],
      "uidFail")
    else .ok ([(TUYA_RESPONSE_SUCCESS, .bool true)], "uidX"),
   fun uid => if uid = "uidX" then .ok (some [exDevA, exDevB, exDevC])
    else if uid = "uidFail" then .error ()
    else .ok Option.none,
   fun idv =>
     if idv = .str "idA" then
       .ok (some [[(TUYA_FACTORY_INFO_MAC, .str "aabbccddee01")]])
     else if idv = .str "idB" then
       .ok (some [[(TUYA_FACTORY_INFO_MAC, .str "aabbccddee02")]])
     else if idv = .str "idC" then
       .ok (some [[(TUYA_FACTORY_INFO_MAC, .str "aabbccddee03")]])
     else .error (),
   fun idv => if idv = .str "idB" then .error ()
     else .ok (some [("functions", exFns), ("status", exSts)])⟩

/-- The credential entry the pass builds for device A: all credential
fields plus both capability descriptors. -/
def exCredAFull : Dict :=
  [(CONF_ADDRESS, .str "AA:BB:CC:DD:EE:01"), (CONF_UUID, .str "uA"),
   (CONF_LOCAL_KEY, .str "kA"), (CONF_DEVICE_ID, .str "idA"),
   (CONF_CATEGORY, .str "cA"), (CONF_PRODUCT_ID, .str "pA"),
   (CONF_DEVICE_NAME, .str "nA"), (CONF_PRODUCT_MODEL, .str "mA"),
   (CONF_PRODUCT_NAME, .str "pnA"), (CONF_FUNCTIONS, exFns),
   (CONF_STATUS_RANGE, exSts)]

/-- The credential entry left for device B, whose capability-spec fetch
raised: all credential fields, no capability descriptors. -/
def exCredBNoCaps : Dict :=
  [(CONF_ADDRESS, .str "AA:BB:CC:DD:EE:02"), (CONF_UUID, .str "uB"),
   (CONF_LOCAL_KEY, .str "kB"), (CONF_DEVICE_ID, .str "idB"),
   (CONF_CATEGORY, .str "cB"), (CONF_PRODUCT_ID, .str "pB"),
   (CONF_DEVICE_NAME, .str "nB"), (CONF_PRODUCT_MODEL, .str "mB"),
   (CONF_PRODUCT_NAME, .str "pnB")]

/-- The credential entry the pass builds for device C. -/
def exCredCFull : Dict :=
  [(CONF_ADDRESS, .str "AA:BB:CC:DD:EE:03"), (CONF_UUID, .str "uC"),
   (CONF_LOCAL_KEY, .str "kC"), (CONF_DEVICE_ID, .str "idC"),
   (CONF_CATEGORY, .str "cC"), (CONF_PRODUCT_ID, .str "pC"),
   (CONF_DEVICE_NAME, .str "nC"), (CONF_PRODUCT_MODEL, .str "mC"),
   (CONF_PRODUCT_NAME, .str "pnC"), (CONF_FUNCTIONS, exFns),
   (CONF_STATUS_RANGE, exSts)]

/-- A fresh cache item holding the session whose listing succeeds. -/
def exItemX : TuyaCloudCacheItem := ⟨some ⟨"uidX"⟩, [], []⟩

/-- A remote whose factory-info record carries `None` under the `mac`
key — the shape that makes lines 222-225 of `cloud.py` raise an
uncaught `TypeError`. -/
def exRemoteBadMac : Remote :=
  ⟨fun _ => .ok ([(TUYA_RESPONSE_SUCCESS, .bool true)], "uidN"),
   fun uid => if uid = "uidN" then .ok (some [exDevA]) else .ok Option.none,
   fun _ => .ok (some [[(TUYA_FACTORY_INFO_MAC, PyVal.none)]]),
   fun _ => .ok Option.none⟩

/-! ### Basic lemmas about the dictionary model -/

theorem aget_aset {α : Type} (c : AList α) (k k' : String) (v : α) :
    aget (aset c k v) k' = if k = k' then some v else aget c k' := by
  induction c with
  | nil => by_cases h : k = k' <;> simp [aset, aget, h]
  | cons p rest ih =>
    obtain ⟨pk, pv⟩ := p
    by_cases h1 : pk = k
    · subst h1
      by_cases h2 : pk = k' <;> simp [aset, aget, h2]
    · by_cases h2 : k = k'
      · subst h2
        simp [aset, aget, h1, ih]
      · simp only [aset, if_neg h1]
        by_cases h3 : pk = k' <;> simp [aget, h3, ih, h2]

theorem pyGetD_eq_getOrNone (d : Dict) (k : String) (dflt : PyVal)
    (h : (getOrNone d k).isNoneV = false) : pyGetD d k dflt = getOrNone d k := by
  unfold pyGetD getOrNone at *
  cases hk : aget d k with
  | none => rw [hk] at h; simp [PyVal.isNoneV] at h
  | some v => simp [hk]

theorem ne_nil_of_key (d : Dict) (k : String)
    (h : (getOrNone d k).isNoneV = false) : d.isEmpty = false := by
  cases d with
  | nil => simp [getOrNone, aget, PyVal.isNoneV] at h
  | cons p rest => rfl

theorem hex_upper (c : Char) (h : c ∈ hexChars) :
    pyUpperChar c ∈ upperHexColon := by
  simp [hexChars, String.toList] at h
  rcases h with rfl|rfl|rfl|rfl|rfl|rfl|rfl|rfl|rfl|rfl|rfl|rfl|rfl|rfl|rfl|rfl|rfl|rfl|rfl|rfl|rfl|rfl <;> decide

theorem hex_upper_ne_colon (c : Char) (h : c ∈ hexChars) :
    pyUpperChar c ≠ ':' := by
  simp [hexChars, String.toList] at h
  rcases h with rfl|rfl|rfl|rfl|rfl|rfl|rfl|rfl|rfl|rfl|rfl|rfl|rfl|rfl|rfl|rfl|rfl|rfl|rfl|rfl|rfl|rfl <;> decide

theorem colon_upper_mem : pyUpperChar ':' ∈ upperHexColon := by decide

/-! ### Claims -/

/-- **C1** — the claim states that every non-`None` result of
`get_device_credentials` is complete (identity token, local key, device
identifier, category and product identifier all non-empty), an incomplete
lookup yielding `None` instead.  The code violates this: the fast path
checks only `is not None` and the result object is built with
empty-string defaults, bypassing the completeness check
`check_and_create_device_credentials` that the abstract base class
provides for exactly this purpose.  This theorem evaluates the code on a
hint whose identity token is the empty string: a credential object with
an empty `uuid` is returned, while the repository's own well-formedness
check rejects those very fields. -/
theorem c1_incomplete_credential_returned :
    (get_device_credentials exRemoteNull exSt0 exIncompleteHint "AA"
        false false).1 = .ok (some (mkCredentials exIncompleteHint))
    ∧ (mkCredentials exIncompleteHint).uuid = .str ""
    ∧ check_and_create_device_credentials
        (mkCredentials exIncompleteHint).uuid
        (mkCredentials exIncompleteHint).local_key
        (mkCredentials exIncompleteHint).device_id
        (mkCredentials exIncompleteHint).category
        (mkCredentials exIncompleteHint).product_id
        (mkCredentials exIncompleteHint).device_name
        (mkCredentials exIncompleteHint).product_model
        (mkCredentials exIncompleteHint).product_name
        (mkCredentials exIncompleteHint).functions
        (mkCredentials exIncompleteHint).status_range = Option.none := by
  refine ⟨rfl, rfl, ?_⟩
  decide

/-- **C5** — the login fingerprint is a function of the values of the
login field set only: any two configuration dictionaries that agree on
the value of every login key produce the same cache key, whatever their
key ordering and whatever extra keys they hold. -/
theorem c5_cache_key_depends_on_login_values_only (d1 d2 : Dict)
    (h : ∀ k ∈ CONF_TUYA_LOGIN_KEYS, getOrNone d1 k = getOrNone d2 k) :
    _get_cache_key d1 = _get_cache_key d2 := by
  unfold _get_cache_key
  congr 1
  apply List.map_congr_left
  intro k hk
  rw [h k hk]

/-- Witness for C5: two dictionaries with the same login values, opposite
key order, one with an extra non-login key, fingerprint identically. -/
theorem c5_witness :
    _get_cache_key
      [(CONF_ENDPOINT, .str "e"), (CONF_ACCESS_ID, .str "a"),
       (CONF_ACCESS_SECRET, .str "s"), (CONF_AUTH_TYPE, .int 0),
       (CONF_USERNAME, .str "u"), (CONF_PASSWORD, .str "p"),
       (CONF_COUNTRY_CODE, .str "1"), (CONF_APP_TYPE, .str "t")]
    = _get_cache_key
      [(CONF_ADDRESS, .str "AA"), (CONF_APP_TYPE, .str "t"),
       (CONF_COUNTRY_CODE, .str "1"), (CONF_PASSWORD, .str "p"),
       (CONF_USERNAME, .str "u"), (CONF_AUTH_TYPE, .int 0),
       (CONF_ACCESS_SECRET, .str "s"), (CONF_ACCESS_ID, .str "a"),
       (CONF_ENDPOINT, .str "e")] :=
  c5_cache_key_depends_on_login_values_only _ _ (by decide)

/-- **C6** — for every raw hardware-address value of twelve hexadecimal
characters, the normalized form is 17 characters long, consists of
uppercase hexadecimal digits and colons only, splits as six two-character
colon-free groups joined by colons, and the same input always yields the
same output. -/
theorem c6_mac_normalization (s : List Char) (h12 : s.length = 12)
    (hhex : ∀ c ∈ s, c ∈ hexChars) :
    (macNormalizeL s).length = 17
    ∧ (∀ c ∈ macNormalizeL s, c ∈ upperHexColon)
    ∧ (∃ gs : List (List Char), gs.length = 6
        ∧ (∀ g ∈ gs, g.length = 2 ∧ ∀ c ∈ g, c ≠ ':')
        ∧ macNormalizeL s = List.intercalate [':'] gs)
    ∧ (∀ t : List Char, t = s → macNormalizeL t = macNormalizeL s) := by
  rcases s with _ | ⟨a0, _ | ⟨a1, _ | ⟨a2, _ | ⟨a3, _ | ⟨a4, _ | ⟨a5, _ | ⟨a6, _ | ⟨a7, _ | ⟨a8, _ | ⟨a9, _ | ⟨a10, _ | ⟨a11, _ | ⟨a12, s⟩⟩⟩⟩⟩⟩⟩⟩⟩⟩⟩⟩⟩ <;>
    simp only [List.length_cons, List.length_nil] at h12 <;> try omega
  have h0 : a0 ∈ hexChars := hhex _ (by simp)
  have h1 : a1 ∈ hexChars := hhex _ (by simp)
  have h2 : a2 ∈ hexChars := hhex _ (by simp)
  have h3 : a3 ∈ hexChars := hhex _ (by simp)
  have h4 : a4 ∈ hexChars := hhex _ (by simp)
  have h5 : a5 ∈ hexChars := hhex _ (by simp)
  have h6 : a6 ∈ hexChars := hhex _ (by simp)
  have h7 : a7 ∈ hexChars := hhex _ (by simp)
  have h8 : a8 ∈ hexChars := hhex _ (by simp)
  have h9 : a9 ∈ hexChars := hhex _ (by simp)
  have h10 : a10 ∈ hexChars := hhex _ (by simp)
  have h11 : a11 ∈ hexChars := hhex _ (by simp)
  have hlist : macNormalizeL [a0,a1,a2,a3,a4,a5,a6,a7,a8,a9,a10,a11] =
      [pyUpperChar a0, pyUpperChar a1, pyUpperChar ':', pyUpperChar a2,
       pyUpperChar a3, pyUpperChar ':', pyUpperChar a4, pyUpperChar a5,
       pyUpperChar ':', pyUpperChar a6, pyUpperChar a7, pyUpperChar ':',
       pyUpperChar a8, pyUpperChar a9, pyUpperChar ':', pyUpperChar a10,
       pyUpperChar a11] := rfl
  refine And.intro rfl (And.intro ?_ (And.intro ?_ ?_))
  · intro c hc
    rw [hlist] at hc
    simp only [List.mem_cons, List.not_mem_nil, or_false] at hc
    rcases hc with rfl|rfl|rfl|rfl|rfl|rfl|rfl|rfl|rfl|rfl|rfl|rfl|rfl|rfl|rfl|rfl|rfl
    all_goals first
      | exact colon_upper_mem
      | (apply hex_upper; assumption)
  · apply Exists.intro
      ([[pyUpperChar a0, pyUpperChar a1], [pyUpperChar a2, pyUpperChar a3],
        [pyUpperChar a4, pyUpperChar a5], [pyUpperChar a6, pyUpperChar a7],
        [pyUpperChar a8, pyUpperChar a9], [pyUpperChar a10, pyUpperChar a11]])
    refine And.intro rfl (And.intro ?_ ?_)
    · intro g hg
      simp only [List.mem_cons, List.not_mem_nil, or_false] at hg
      rcases hg with rfl|rfl|rfl|rfl|rfl|rfl
      all_goals refine ⟨rfl, ?_⟩
      all_goals intro c hc
      all_goals simp only [List.mem_cons, List.not_mem_nil, or_false] at hc
      all_goals rcases hc with rfl|rfl
      all_goals apply hex_upper_ne_colon
      all_goals assumption
    · rw [hlist]
      have hcolon : pyUpperChar ':' = ':' := by decide
      rw [hcolon]
      rfl
  · intro t ht
    rw [ht]

/-- Witness for C6: the normalization of a concrete raw value. -/
theorem c6_witness :
    (macNormalizeL ['a','a','b','b','c','c','d','d','e','e','0','1']).length = 17
    ∧ (∀ c ∈ macNormalizeL ['a','a','b','b','c','c','d','d','e','e','0','1'],
        c ∈ upperHexColon)
    ∧ (∃ gs : List (List Char), gs.length = 6
        ∧ (∀ g ∈ gs, g.length = 2 ∧ ∀ c ∈ g, c ≠ ':')
        ∧ macNormalizeL ['a','a','b','b','c','c','d','d','e','e','0','1']
            = List.intercalate [':'] gs)
    ∧ (∀ t : List Char, t = ['a','a','b','b','c','c','d','d','e','e','0','1'] →
        macNormalizeL t
          = macNormalizeL ['a','a','b','b','c','c','d','d','e','e','0','1']) :=
  c6_mac_normalization _ (by decide) (by decide)

/-- **C2** — when the manager's data dictionary already holds a non-`None`
value for every device-credential key and `force_update` is false, the
resolver takes the fast path of lines 314-316: it returns a credential
built from the hint with every claimed field equal to the hint's value,
the state (cache and both remote-call counters) is returned unchanged —
zero remote calls — and the data dictionary is only touched by the
`save_data` merge (which merges the hint with itself). -/
theorem c2_complete_hint_fast_path (remote : Remote) (st : St) (data : Dict)
    (address : String) (save_data : Bool)
    (h : ∀ k ∈ CONF_TUYA_DEVICE_KEYS, (getOrNone data k).isNoneV = false) :
    get_device_credentials remote st data address false save_data
      = (.ok (some (mkCredentials data)), st,
         if save_data then dupdate data data else data)
    ∧ (mkCredentials data).uuid = getOrNone data CONF_UUID
    ∧ (mkCredentials data).local_key = getOrNone data CONF_LOCAL_KEY
    ∧ (mkCredentials data).device_id = getOrNone data CONF_DEVICE_ID
    ∧ (mkCredentials data).category = getOrNone data CONF_CATEGORY
    ∧ (mkCredentials data).product_id = getOrNone data CONF_PRODUCT_ID
    ∧ (mkCredentials data).device_name = getOrNone data CONF_DEVICE_NAME
    ∧ (mkCredentials data).product_model = getOrNone data CONF_PRODUCT_MODEL
    ∧ (mkCredentials data).product_name = getOrNone data CONF_PRODUCT_NAME := by
  have hcred : _has_credentials data = true := by
    unfold _has_credentials
    rw [List.all_eq_true]
    intro k hk
    simp [h k hk]
  have hne : data.isEmpty = false :=
    ne_nil_of_key data CONF_UUID (h _ (by decide))
  refine ⟨?_, ?_, ?_, ?_, ?_, ?_, ?_, ?_, ?_⟩
  · unfold get_device_credentials gdcStep1
    simp only [Bool.not_false, Bool.true_and, hcred, if_true]
    simp [gdcFinish, hne]
  · exact pyGetD_eq_getOrNone data CONF_UUID _ (h _ (by decide))
  · exact pyGetD_eq_getOrNone data CONF_LOCAL_KEY _ (h _ (by decide))
  · exact pyGetD_eq_getOrNone data CONF_DEVICE_ID _ (h _ (by decide))
  · exact pyGetD_eq_getOrNone data CONF_CATEGORY _ (h _ (by decide))
  · exact pyGetD_eq_getOrNone data CONF_PRODUCT_ID _ (h _ (by decide))
  · exact pyGetD_eq_getOrNone data CONF_DEVICE_NAME _ (h _ (by decide))
  · exact pyGetD_eq_getOrNone data CONF_PRODUCT_MODEL _ (h _ (by decide))
  · exact pyGetD_eq_getOrNone data CONF_PRODUCT_NAME _ (h _ (by decide))

/-- Witness for C2: a concrete complete hint resolved against a remote
whose every call would raise — the untouched state confirms nothing was
called. -/
theorem c2_witness :
    get_device_credentials exRemoteNull exSt0 exCompleteHint "AA" false true
      = (.ok (some (mkCredentials exCompleteHint)), exSt0,
         if true then dupdate exCompleteHint exCompleteHint
         else exCompleteHint)
    ∧ (mkCredentials exCompleteHint).uuid = getOrNone exCompleteHint CONF_UUID
    ∧ (mkCredentials exCompleteHint).local_key
        = getOrNone exCompleteHint CONF_LOCAL_KEY
    ∧ (mkCredentials exCompleteHint).device_id
        = getOrNone exCompleteHint CONF_DEVICE_ID
    ∧ (mkCredentials exCompleteHint).category
        = getOrNone exCompleteHint CONF_CATEGORY
    ∧ (mkCredentials exCompleteHint).product_id
        = getOrNone exCompleteHint CONF_PRODUCT_ID
    ∧ (mkCredentials exCompleteHint).device_name
        = getOrNone exCompleteHint CONF_DEVICE_NAME
    ∧ (mkCredentials exCompleteHint).product_model
        = getOrNone exCompleteHint CONF_PRODUCT_MODEL
    ∧ (mkCredentials exCompleteHint).product_name
        = getOrNone exCompleteHint CONF_PRODUCT_NAME :=
  c2_complete_hint_fast_path exRemoteNull exSt0 exCompleteHint "AA" true
    (by decide)

/-- **C8, counterexample** — the claim states that `force_update=True`
with a complete credential already in the local hint *or in the cache*
triggers exactly one login attempt to the remote directory client.
False when the manager's data dictionary is empty: `_login` (line 137)
short-circuits on `len(data) == 0` and returns `{}` without issuing any
remote call, yet the cached credential is still returned — a successful
forced resolution with zero remote login calls. -/
theorem c8_counterexample_empty_data_no_remote_login :
    get_device_credentials exRemoteLoginOk exStCached [] "AA" true false
      = (.ok (some (mkCredentials exCachedCred)), exStCached, [])
    ∧ ((get_device_credentials exRemoteLoginOk exStCached [] "AA"
          true false).2.1.connects = 0
        ∧ (get_device_credentials exRemoteLoginOk exStCached [] "AA"
            true false).2.1.connects ≠ 1) := by
  refine ⟨rfl, by decide, by decide⟩

/-- **C10, counterexample** — the claim states that with
`save_data=False` the manager's data dictionary is unchanged after the
call.  False: a successful login executes lines 166-168 of `cloud.py`,
which replace an `AuthType` enum value stored under the auth-type key by
its raw integer value inside the caller-supplied dictionary — a write
that happens regardless of `save_data`. -/
theorem c10_counterexample_auth_type_normalized :
    (get_device_credentials exRemoteLoginOk exSt0
        (exLoginData (.authType 0)) "AA" false false).2.2
      = exLoginData (.int 0)
    ∧ exLoginData (.int 0) ≠ exLoginData (.authType 0) := by
  refine ⟨by decide, by decide⟩

/-- **C9, counterexample** — the claim states that N concurrent calls
mapping to the same never-before-seen login fingerprint issue exactly one
remote login call.  False: the code holds no lock, so both callers can
pass the cache miss check and reach the awaited login before either
response arrives; in that (valid) schedule each caller issues its own
remote login call — two logins for two callers, not one. -/
theorem c9_counterexample_two_concurrent_logins :
    (interleavedPair exRemoteLoginOk exSt0 (exLoginData (.int 1)) "AA").2.connects
      = 2
    ∧ (interleavedPair exRemoteLoginOk exSt0
        (exLoginData (.int 1)) "AA").2.connects ≠ 1 := by
  refine ⟨by decide, by decide⟩

/-- **C9, amended** — the code performs no per-fingerprint serialization
of logins: in the interleaved schedule in which two concurrent resolver
calls for the same never-before-seen fingerprint both pass the cache
check before either remote login completes, each caller issues its own
remote login call (two callers, two logins), both runs complete normally
(no credential found in the empty directory), and the run really did
start from a fingerprint the cache had never seen. -/
theorem c9_amended_no_login_serialization :
    aget exSt0.cache (_get_cache_key (exLoginData (.int 1))) = Option.none
    ∧ exSt0.connects = 0
    ∧ (interleavedPair exRemoteLoginOk exSt0 (exLoginData (.int 1)) "AA").1
        = some (.ok Option.none, .ok Option.none)
    ∧ (interleavedPair exRemoteLoginOk exSt0
        (exLoginData (.int 1)) "AA").2.connects = 2 := by
  refine ⟨by decide, by decide, rfl, by decide⟩

/-! ### State-shape lemmas -/

theorem gdcFinish_st (item : Option TuyaCloudCacheItem) (cred : Option Dict)
    (data : Dict) (sD : Bool) (st : St) :
    (gdcFinish item cred data sD st).2.1 = st := by
  unfold gdcFinish
  cases cred with
  | none => rfl
  | some c => by_cases hc : c.isEmpty <;> simp [hc]

theorem gdcFinish_data_nosave (item : Option TuyaCloudCacheItem)
    (cred : Option Dict) (data : Dict) (st : St) :
    (gdcFinish item cred data false st).2.2 = data := by
  unfold gdcFinish
  cases cred with
  | none => rfl
  | some c => by_cases hc : c.isEmpty <;> simp [hc]

theorem fillDevice_st (remote : Remote) (st : St) (creds : AList Dict)
    (dev : Dict) :
    (fillDevice remote st creds dev).2.1.connects = st.connects
    ∧ (fillDevice remote st creds dev).2.1.cache = st.cache := by
  unfold fillDevice
  repeat' split
  all_goals simp [bumpGet]

theorem fillDevices_st (remote : Remote) (devs : List Dict) :
    ∀ st creds, (fillDevices remote st creds devs).2.1.connects = st.connects
    ∧ (fillDevices remote st creds devs).2.1.cache = st.cache := by
  induction devs with
  | nil => intro st creds; exact ⟨rfl, rfl⟩
  | cons d rest ih =>
    intro st creds
    obtain ⟨h1, h2⟩ := fillDevice_st remote st creds d
    unfold fillDevices
    cases hfd : fillDevice remote st creds d with
    | mk e rest2 =>
      obtain ⟨st1, creds1⟩ := rest2
      rw [hfd] at h1 h2
      dsimp only at h1 h2
      cases e with
      | error pe => exact ⟨h1, h2⟩
      | ok u =>
        obtain ⟨h3, h4⟩ := ih st1 creds1
        exact ⟨by rw [h3, h1], by rw [h4, h2]⟩

theorem fill_st (remote : Remote) (st : St) (item : TuyaCloudCacheItem) :
    (_fill_cache_item remote st item).2.1.connects = st.connects
    ∧ (_fill_cache_item remote st item).2.1.cache = st.cache := by
  unfold _fill_cache_item
  cases item.api with
  | none => exact ⟨rfl, rfl⟩
  | some api =>
    simp only []
    cases hld : remote.listDevices api.uid with
    | error e => simp [hld, bumpGet]
    | ok r =>
      cases r with
      | none => simp [hld, bumpGet]
      | some devices =>
        by_cases hd : devices.isEmpty
        · simp [hld, hd, bumpGet]
        · obtain ⟨h1, h2⟩ := fillDevices_st remote devices (bumpGet st)
            item.credentials
          simp only [hld, hd]
          simp [hd, bumpGet] at h1 h2 ⊢
          exact ⟨h1, h2⟩

theorem gdcRecheck_connects (remote : Remote) (ck : Option String)
    (data2 : Dict) (address : String) (sD : Bool) (st2 : St) :
    (gdcRecheck remote ck data2 address sD st2).2.1.connects
      = st2.connects := by
  unfold gdcRecheck
  cases ck with
  | none => simp [gdcFinish_st]
  | some k =>
    cases hi : aget st2.cache k with
    | none => simp [hi, gdcFinish_st]
    | some item1 =>
      obtain ⟨h1, _⟩ := fill_st remote st2 item1
      simp only [hi]
      cases hf : _fill_cache_item remote st2 item1 with
      | mk e rest =>
        obtain ⟨st3, item2⟩ := rest
        rw [hf] at h1
        dsimp only at h1 ⊢
        cases e with
        | error pe => simpa using h1
        | ok u =>
          simp only [gdcFinish_st]
          simpa using h1

theorem gdcStep2_connects (remote : Remote) (s : Susp) (address : String)
    (sD : Bool) (st : St) :
    (gdcStep2 remote s address sD st).2.1.connects = st.connects := by
  unfold gdcStep2
  cases hc : remote.connect s.idx with
  | error e => simp [gdcFinish_st]
  | ok p =>
    obtain ⟨response, uid⟩ := p
    by_cases hs : _is_login_success response
    · simp only [hs, if_true]
      cases ha : aget s.data CONF_AUTH_TYPE with
      | none => rfl
      | some authVal => simp [gdcRecheck_connects]
    · simp [hs, gdcFinish_st]

/-- **C8, amended** — calling `get_device_credentials(address,
force_update=True, save_data)` never takes the cached short-circuit and,
*provided the manager's data dictionary is non-empty*, issues exactly one
remote login call before returning (whatever the remote then does and
whatever is in the cache); with an empty data dictionary the login
attempt short-circuits inside `_login` and no remote call is made (see
the counterexample). -/
theorem c8_amended_force_update_single_login (remote : Remote) (st : St)
    (data : Dict) (address : String) (sD : Bool)
    (h : data.isEmpty = false) :
    (get_device_credentials remote st data address true sD).2.1.connects
      = st.connects + 1 := by
  unfold get_device_credentials gdcStep1
  simp [h, gdcStep2_connects, bumpConnect]

/-- Witness for C8 (amended): a concrete forced refresh issues one login. -/
theorem c8_amended_witness :
    (get_device_credentials exRemoteLoginOk exSt0 (exLoginData (.int 1))
        "AA" true false).2.1.connects = exSt0.connects + 1 :=
  c8_amended_force_update_single_login exRemoteLoginOk exSt0
    (exLoginData (.int 1)) "AA" false (by decide)

theorem authNormalize_id (d : Dict) (v : PyVal)
    (h : v.isAuthType = false) : authNormalize d v = d := by
  cases v with
  | authType n => simp [PyVal.isAuthType] at h
  | none => rfl
  | bool b => rfl
  | int n => rfl
  | str s => rfl
  | list xs => rfl

theorem gdcRecheck_data_nosave (remote : Remote) (ck : Option String)
    (data2 : Dict) (address : String) (st2 : St) :
    (gdcRecheck remote ck data2 address false st2).2.2 = data2 := by
  unfold gdcRecheck
  cases ck with
  | none => simp [gdcFinish_data_nosave]
  | some k =>
    cases hi : aget st2.cache k with
    | none => simp [hi, gdcFinish_data_nosave]
    | some item1 =>
      simp only [hi]
      cases hf : _fill_cache_item remote st2 item1 with
      | mk e rest =>
        obtain ⟨st3, item2⟩ := rest
        dsimp only
        cases e with
        | error pe => rfl
        | ok u => simp [gdcFinish_data_nosave]

theorem gdcStep2_data_nosave (remote : Remote) (s : Susp) (address : String)
    (st : St) (h : (getOrNone s.data CONF_AUTH_TYPE).isAuthType = false) :
    (gdcStep2 remote s address false st).2.2 = s.data := by
  unfold gdcStep2
  cases hc : remote.connect s.idx with
  | error e => simp [gdcFinish_data_nosave]
  | ok p =>
    obtain ⟨response, uid⟩ := p
    by_cases hs : _is_login_success response
    · simp only [hs, if_true]
      cases ha : aget s.data CONF_AUTH_TYPE with
      | none => rfl
      | some authVal =>
        have hv : authNormalize s.data authVal = s.data := by
          apply authNormalize_id
          have : getOrNone s.data CONF_AUTH_TYPE = authVal := by
            simp [getOrNone, ha]
          rw [this] at h
          exact h
        simp [gdcRecheck_data_nosave, hv]
    · simp [hs, gdcFinish_data_nosave]

theorem gdcStep1_data_nosave (st : St) (data : Dict) (address : String)
    (fU : Bool) :
    ((gdcStep1 st data address fU false).1.elim (fun p => p.2) Susp.data)
      = data := by
  unfold gdcStep1
  by_cases h1 : (!fU && _has_credentials data) = true
  · simp [h1, gdcFinish_data_nosave]
  · simp only [h1]
    by_cases h2 : data.isEmpty
    all_goals (try simp [h1, h2, gdcFinish_data_nosave])
    all_goals (try split)
    all_goals (try split)
    all_goals (try simp [gdcFinish_data_nosave])

/-- **C10, amended** — with `save_data=False` the manager's data
dictionary is unchanged by `get_device_credentials` *provided the value
stored under the auth-type key is not an `AuthType` enum member*; when it
is, a successful login replaces it in place by its raw integer value
(lines 166-168 of `cloud.py`, executed regardless of `save_data` — see
the counterexample).  Only `save_data=True` merges login and credential
fields into the dictionary. -/
theorem c10_amended_data_unchanged_without_save (remote : Remote) (st : St)
    (data : Dict) (address : String) (fU : Bool)
    (h : (getOrNone data CONF_AUTH_TYPE).isAuthType = false) :
    (get_device_credentials remote st data address fU false).2.2 = data := by
  unfold get_device_credentials
  have hs1 := gdcStep1_data_nosave st data address fU
  cases hstep : gdcStep1 st data address fU false with
  | mk o st1 =>
    rw [hstep] at hs1
    cases o with
    | inl p =>
      obtain ⟨e, d2⟩ := p
      simpa using hs1
    | inr s =>
      simp only [Sum.elim_inr] at hs1
      have h2 : (getOrNone s.data CONF_AUTH_TYPE).isAuthType = false := by
        rw [hs1]; exact h
      rw [gdcStep2_data_nosave remote s address st1 h2, hs1]

/-- Witness for C10 (amended): with a plain integer auth-type value the
data dictionary survives a full login-and-fetch resolution unchanged. -/
theorem c10_amended_witness :
    (get_device_credentials exRemoteLoginOk exSt0 (exLoginData (.int 1))
        "AA" false false).2.2 = exLoginData (.int 1) :=
  c10_amended_data_unchanged_without_save exRemoteLoginOk exSt0
    (exLoginData (.int 1)) "AA" false (by decide)

/-- The address normalization of lines 222-225 sits outside every `try`:
a factory-info record whose `mac` value is `None` makes the `TypeError`
of slicing it propagate out of `get_device_credentials`. -/
theorem typeError_escapes :
    (get_device_credentials exRemoteBadMac exSt0 (exLoginData (.int 1))
        "AA" false false).1 = .error .typeError := rfl

theorem credsKept_refl (c : Cache) : credsKept c c :=
  fun _ it h => ⟨it, h, rfl⟩

theorem credsGrow_refl (c : Cache) : credsGrow c c :=
  fun _ it _ h hs => ⟨it, h, hs⟩

theorem credsGrow_of_kept {c c2 : Cache} (h : credsKept c c2) :
    credsGrow c c2 := by
  intro k it a hk hs
  obtain ⟨it2, h2, he⟩ := h k it hk
  exact ⟨it2, h2, by rw [he]; exact hs⟩

theorem credsGrow_trans {a b c : Cache} (h1 : credsGrow a b)
    (h2 : credsGrow b c) : credsGrow a c := by
  intro k it ad hk hs
  obtain ⟨it2, hk2, hs2⟩ := h1 k it ad hk hs
  exact h2 k it2 ad hk2 hs2

theorem aget_aset_isSome {α : Type} (c : AList α) (k a : String) (v : α)
    (h : (aget c a).isSome) : (aget (aset c k v) a).isSome := by
  rw [aget_aset]
  by_cases he : k = a
  · rw [if_pos he]; rfl
  · rw [if_neg he]; exact h

theorem credUpdate_isSome (creds : AList Dict) (mac key : String)
    (value : PyVal) (a : String) (h : (aget creds a).isSome) :
    (aget (credUpdate creds mac key value) a).isSome := by
  unfold credUpdate
  cases hm : aget creds mac with
  | some c => exact aget_aset_isSome _ _ _ _ h
  | none => exact h

theorem fillDevice_grows (remote : Remote) (st : St) (creds : AList Dict)
    (dev : Dict) (a : String) (h : (aget creds a).isSome) :
    (aget (fillDevice remote st creds dev).2.2 a).isSome := by
  unfold fillDevice
  dsimp only
  repeat' split
  all_goals first
    | exact h
    | exact aget_aset_isSome _ _ _ _ h
    | exact credUpdate_isSome _ _ _ _ _ (aget_aset_isSome _ _ _ _ h)
    | exact credUpdate_isSome _ _ _ _ _
        (credUpdate_isSome _ _ _ _ _ (aget_aset_isSome _ _ _ _ h))

theorem fillDevices_grows (remote : Remote) (devs : List Dict) :
    ∀ st creds a, (aget creds a).isSome →
      (aget (fillDevices remote st creds devs).2.2 a).isSome := by
  induction devs with
  | nil => intro st creds a h; exact h
  | cons d rest ih =>
    intro st creds a h
    have hg := fillDevice_grows remote st creds d a h
    unfold fillDevices
    cases hfd : fillDevice remote st creds d with
    | mk e rest2 =>
      obtain ⟨st1, creds1⟩ := rest2
      rw [hfd] at hg
      dsimp only at hg
      cases e with
      | error pe => exact hg
      | ok u => exact ih st1 creds1 a hg

theorem fill_grows (remote : Remote) (st : St) (item : TuyaCloudCacheItem)
    (a : String) (h : (aget item.credentials a).isSome) :
    (aget (_fill_cache_item remote st item).2.2.credentials a).isSome := by
  unfold _fill_cache_item
  cases ha : item.api with
  | none => exact h
  | some api =>
    simp only [ha]
    cases hld : remote.listDevices api.uid with
    | error e => exact h
    | ok r =>
      cases r with
      | none => exact h
      | some devices =>
        by_cases hd : devices.isEmpty
        · simp only [hd, if_true]; exact h
        · simp only [hd, Bool.false_eq_true, if_false]
          exact fillDevices_grows remote devices (bumpGet st)
            item.credentials a h

theorem loginCacheUpsert_kept (cache : Cache) (data2 : Dict) (uid : String) :
    credsKept cache (loginCacheUpsert cache data2 uid) := by
  intro k it hit
  unfold loginCacheUpsert
  dsimp only
  by_cases he : _get_cache_key data2 = k
  · subst he
    rw [hit]
    refine ⟨{ it with api := some ⟨uid⟩, login := data2 }, ?_, rfl⟩
    rw [aget_aset, if_pos rfl]
  · cases hk : aget cache (_get_cache_key data2) with
    | some item =>
      refine ⟨it, ?_, rfl⟩
      rw [aget_aset, if_neg he]
      exact hit
    | none =>
      refine ⟨it, ?_, rfl⟩
      rw [aget_aset, if_neg he]
      exact hit

theorem loginCacheUpsert_existing (cache : Cache) (data2 : Dict)
    (uid : String) (it : TuyaCloudCacheItem)
    (h : aget cache (_get_cache_key data2) = some it) :
    aget (loginCacheUpsert cache data2 uid) (_get_cache_key data2)
      = some { it with api := some ⟨uid⟩, login := data2 } := by
  unfold loginCacheUpsert
  dsimp only
  rw [h, aget_aset, if_pos rfl]

theorem login_kept (remote : Remote) (st : St) (data : Dict) (b : Bool) :
    credsKept st.cache (_login remote st data b).2.1.cache := by
  unfold _login
  by_cases h : data.isEmpty
  · rw [if_pos h]; exact credsKept_refl _
  · rw [if_neg h]
    cases hc : remote.connect st.connects with
    | error e => exact credsKept_refl _
    | ok p =>
      obtain ⟨response, uid⟩ := p
      by_cases hs : _is_login_success response
      · simp only [hs, if_true]
        cases b with
        | false => exact credsKept_refl _
        | true =>
          cases ha : aget data CONF_AUTH_TYPE with
          | none => exact credsKept_refl _
          | some authVal => exact loginCacheUpsert_kept _ _ _
      · simp only [hs, Bool.false_eq_true, if_false]
        exact credsKept_refl _

theorem credsGrow_aset_refill (cache : Cache) (k : String)
    (item1 item2 : TuyaCloudCacheItem) (hi : aget cache k = some item1)
    (hgrow : ∀ a, (aget item1.credentials a).isSome →
      (aget item2.credentials a).isSome) :
    credsGrow cache (aset cache k item2) := by
  intro k2 it a hk2 hsome
  by_cases he : k = k2
  · subst he
    rw [hi] at hk2
    cases hk2
    exact ⟨item2, by rw [aget_aset, if_pos rfl], hgrow a hsome⟩
  · exact ⟨it, by rw [aget_aset, if_neg he]; exact hk2, hsome⟩

theorem gdcRecheck_grows (remote : Remote) (ck : Option String)
    (data2 : Dict) (address : String) (sD : Bool) (st2 : St) :
    credsGrow st2.cache (gdcRecheck remote ck data2 address sD st2).2.1.cache
    := by
  unfold gdcRecheck
  cases ck with
  | none => rw [gdcFinish_st]; exact credsGrow_refl _
  | some k =>
    cases hi : aget st2.cache k with
    | none =>
      simp only [hi]
      rw [gdcFinish_st]
      exact credsGrow_refl _
    | some item1 =>
      simp only [hi]
      obtain ⟨_, hcache⟩ := fill_st remote st2 item1
      cases hf : _fill_cache_item remote st2 item1 with
      | mk e rest =>
        obtain ⟨st3, item2⟩ := rest
        rw [hf] at hcache
        dsimp only at hcache
        have hgrow : ∀ a, (aget item1.credentials a).isSome →
            (aget item2.credentials a).isSome := by
          intro a hsome
          have := fill_grows remote st2 item1 a hsome
          rw [hf] at this
          exact this
        have hcore : credsGrow st2.cache (aset st3.cache k item2) := by
          rw [hcache]
          exact credsGrow_aset_refill st2.cache k item1 item2 hi hgrow
        cases e with
        | error pe => exact hcore
        | ok u =>
          dsimp only
          rw [gdcFinish_st]
          exact hcore

theorem gdcStep2_grows (remote : Remote) (s : Susp) (address : String)
    (sD : Bool) (st : St) :
    credsGrow st.cache (gdcStep2 remote s address sD st).2.1.cache := by
  unfold gdcStep2
  cases hc : remote.connect s.idx with
  | error e => rw [gdcFinish_st]; exact credsGrow_refl _
  | ok p =>
    obtain ⟨response, uid⟩ := p
    by_cases hs : _is_login_success response
    · simp only [hs, if_true]
      cases ha : aget s.data CONF_AUTH_TYPE with
      | none => exact credsGrow_refl _
      | some authVal =>
        dsimp only
        exact credsGrow_trans
          (credsGrow_of_kept
            (loginCacheUpsert_kept st.cache
              (authNormalize s.data authVal) uid))
          (gdcRecheck_grows remote s.cacheKey
            (authNormalize s.data authVal) address sD
            { st with cache := (loginCacheUpsert st.cache
                (authNormalize s.data authVal) uid) })
    · dsimp only
      rw [if_neg hs, gdcFinish_st]
      exact credsGrow_refl _

theorem gdc_grows (remote : Remote) (st : St) (data : Dict)
    (address : String) (fU sD : Bool) :
    credsGrow st.cache
      (get_device_credentials remote st data address fU sD).2.1.cache := by
  unfold get_device_credentials gdcStep1
  by_cases h1 : (!fU && _has_credentials data) = true
  · rw [if_pos h1]
    dsimp only
    rw [gdcFinish_st]
    exact credsGrow_refl _
  · rw [if_neg h1]
    dsimp only
    by_cases h3 : (((if _has_login data then some (_get_cache_key data)
        else findKeyByAddress st.cache address).bind fun k =>
          aget st.cache k).isNone || fU) = true
    · rw [if_pos h3]
      by_cases h2 : data.isEmpty
      · rw [if_pos h2]
        dsimp only
        rw [gdcFinish_st]
        exact credsGrow_refl _
      · rw [if_neg h2]
        exact gdcStep2_grows remote _ address sD (bumpConnect st)
    · rw [if_neg h3]
      dsimp only
      rw [gdcFinish_st]
      exact credsGrow_refl _

/-- **C7** — (i) `_login` preserves every cache entry's credential
sub-map exactly, whatever it does to session handles and login fields;
(ii) a successful re-login for a fingerprint that already has an entry
updates that entry's session handle and login fields in place and keeps
its credential sub-map (the record update of `loginCacheUpsert`);
(iii) `_fill_cache_item` only adds to or overwrites an item's credential
sub-map, never removing an address; (iv) `get_device_credentials` as a
whole only grows the credential sub-maps of the process-wide cache. -/
theorem c7_credential_submap_preservation :
    (∀ remote st data b,
        credsKept st.cache (_login remote st data b).2.1.cache)
    ∧ (∀ cache data2 uid it, aget cache (_get_cache_key data2) = some it →
        aget (loginCacheUpsert cache data2 uid) (_get_cache_key data2)
          = some { it with api := some ⟨uid⟩, login := data2 })
    ∧ (∀ remote st item a, (aget item.credentials a).isSome →
        (aget (_fill_cache_item remote st item).2.2.credentials a).isSome)
    ∧ (∀ remote st data address fU sD,
        credsGrow st.cache
          (get_device_credentials remote st data address fU sD).2.1.cache) :=
  ⟨login_kept, loginCacheUpsert_existing, fill_grows, gdc_grows⟩

/-- Witness for C7: a forced full refresh over a cache that already
knows address `AA` still knows it afterwards. -/
theorem c7_witness :
    ∃ it2, aget (get_device_credentials exRemoteLoginOk exStCached
        (exLoginData (.int 1)) "AA" true false).2.1.cache "K0" = some it2
      ∧ (aget it2.credentials "AA").isSome :=
  c7_credential_submap_preservation.2.2.2 exRemoteLoginOk exStCached
    (exLoginData (.int 1)) "AA" true false "K0" exCachedItem "AA"
    (by decide) (by decide)

/-- **C4, counterexample** — the claim states that when the
capability-spec fetch for device B fails while A and C succeed in the
same pass, the cache afterwards contains *no entry at all* for B.  False:
`_fill_cache_item` inserts the credential entry (line 227 of `cloud.py`)
*before* the specification fetch, so a raised spec fetch leaves B's entry
in place — B is present in the credential table even though its spec
fetch raised. -/
theorem c4_counterexample_entry_remains_for_failed_spec :
    exRemoteBatch.deviceSpec (.str "idB") = .error ()
    ∧ (aget (_fill_cache_item exRemoteBatch exSt0 exItemX).2.2.credentials
        "AA:BB:CC:DD:EE:02").isSome = true := by
  refine ⟨rfl, by decide⟩

/-- **C4, amended** — in a batch pass where the capability-spec fetch for
device B raises while devices A and C succeed, the pass completes
normally and the resulting credential table holds complete entries with
capability descriptors for A and C, and for B an entry with every
credential field but no capability descriptors (not no entry, as the
claim stated); and a failure at the list-devices step aborts only that
context's population: running the builder loop over a context whose
device listing raises followed by a healthy context leaves the first
context's entry with its session handle and its (empty) credential
table intact and fully populates the second.  Note the shared-dict
aliasing of `build_cache`: both entries' login fields end up holding the
*second* context's field set, because `_login` stored the one
per-pass dictionary by reference and the pass cleared and refilled it
for each context. -/
theorem c4_amended_partial_failure_isolation :
    _fill_cache_item exRemoteBatch exSt0 exItemX
      = (.ok (), ⟨[], 0, 7⟩,
         ⟨some ⟨"uidX"⟩, [],
          [("AA:BB:CC:DD:EE:01", exCredAFull),
           ("AA:BB:CC:DD:EE:02", exCredBNoCaps),
           ("AA:BB:CC:DD:EE:03", exCredCFull)]⟩)
    ∧ (buildPass exRemoteBatch exSt0
        [exLoginData (.int 1), exLoginData (.int 2)]).1 = .ok ()
    ∧ aget (buildPass exRemoteBatch exSt0
          [exLoginData (.int 1), exLoginData (.int 2)]).2.cache
        (_get_cache_key (exLoginData (.int 1)))
      = some ⟨some ⟨"uidFail"⟩, exLoginData (.int 2), []⟩
    ∧ aget (buildPass exRemoteBatch exSt0
          [exLoginData (.int 1), exLoginData (.int 2)]).2.cache
        (_get_cache_key (exLoginData (.int 2)))
      = some ⟨some ⟨"uidX"⟩, exLoginData (.int 2),
          [("AA:BB:CC:DD:EE:01", exCredAFull),
           ("AA:BB:CC:DD:EE:02", exCredBNoCaps),
           ("AA:BB:CC:DD:EE:03", exCredCFull)]⟩ := by
  refine ⟨rfl, rfl, by decide, by decide⟩

end TuyaBLE
